import Mathlib

/-!
Verification of `watchf` (src/main/watch.c, src/main/main.c): a shallow
embedding in Lean 4 of the watch module — the inotify event source, the
signalfd cancellation source, the debounce loop and session lifecycle —
together with theorems settling the specification claims.

Modelling conventions:
* C `int` values that can be negative (file descriptors, wait statuses,
  return codes) are `Int`; counters that stay non-negative are `Nat`.
* System-call outcomes (signalfd, inotify_init, inotify_add_watch, poll,
  read, system) are supplied by environment/oracle values, so every
  control path of the C code is a case of a total Lean function.
* One bounded `read` of the inotify fd either fails (negative length) or
  yields the decoded batch of length-prefixed records; the byte-level
  iteration of `watch_handler` visits each record exactly once, so the
  batch is modelled as a `List` of decoded records.
* `printf`-style verbose output is modelled as a `List String` of emitted
  lines/pieces; stderr diagnostics are not modelled.
-/

namespace Watchf

/-! ### inotify mask bits (from sys/inotify.h) -/

def IN_ACCESS : Nat := 0x001
def IN_MODIFY : Nat := 0x002
def IN_ATTRIB : Nat := 0x004
def IN_CLOSE_WRITE : Nat := 0x008
def IN_CLOSE_NOWRITE : Nat := 0x010
def IN_OPEN : Nat := 0x020
def IN_MOVED_FROM : Nat := 0x040
def IN_MOVED_TO : Nat := 0x080
def IN_CREATE : Nat := 0x100
def IN_DELETE : Nat := 0x200
def IN_DELETE_SELF : Nat := 0x400
def IN_MOVE_SELF : Nat := 0x800
def IN_ISDIR : Nat := 0x40000000

/-! ### other C-level constants -/

def SIGINT : Nat := 2
def SIGTERM : Nat := 15
def EXIT_SUCCESS : Nat := 0
def EXIT_FAILURE : Nat := 1

/-- One decoded `struct inotify_event`: watch descriptor, event-kind
bitset, rename-correlation cookie, name length and optional name. -/
structure inotify_event where
  wd : Int
  mask : Nat
  cookie : Nat
  len : Nat
  name : String
  deriving Repr, DecidableEq

/-- Embeds `report_event` (watch.c lines 50-101): the verbose report of
one event, as the list of printed pieces — the generic header followed by
one tag per recognized kind present in the mask (move tags carry the
cookie, as in the source). -/
def report_event (event : inotify_event) : List String :=
  let header :=
    "wd=" ++ toString event.wd ++ " mask=" ++ toString event.mask ++
    " cookie=" ++ toString event.cookie ++ " len=" ++ toString event.len ++
    " dir=" ++ (if event.mask &&& IN_ISDIR != 0 then "yes" else "no") ++
    (if event.len != 0 then " name=" ++ event.name else "")
  [header] ++
  (if event.mask &&& IN_ACCESS != 0 then ["IN_ACCESS,"] else []) ++
  (if event.mask &&& IN_ATTRIB != 0 then ["IN_ATTRIB,"] else []) ++
  (if event.mask &&& IN_OPEN != 0 then ["IN_OPEN,"] else []) ++
  (if event.mask &&& IN_CLOSE_WRITE != 0 then ["IN_CLOSE_WRITE,"] else []) ++
  (if event.mask &&& IN_CLOSE_NOWRITE != 0 then ["IN_CLOSE_NOWRITE,"] else []) ++
  (if event.mask &&& IN_CREATE != 0 then ["IN_CREATE,"] else []) ++
  (if event.mask &&& IN_DELETE != 0 then ["IN_DELETE,"] else []) ++
  (if event.mask &&& IN_DELETE_SELF != 0 then ["IN_DELETE_SELF,"] else []) ++
  (if event.mask &&& IN_MODIFY != 0 then ["IN_MODIFY,"] else []) ++
  (if event.mask &&& IN_MOVE_SELF != 0 then ["IN_MOVE_SELF,"] else []) ++
  (if event.mask &&& IN_MOVED_FROM != 0 then
    ["IN_MOVED_FROM (cookie: " ++ toString event.cookie ++ "),"] else []) ++
  (if event.mask &&& IN_MOVED_TO != 0 then
    ["IN_MOVED_TO (cookie: " ++ toString event.cookie ++ ")"] else [])

/-- Outcome of the one bounded `read` in `watch_handler`: `failure` is a
negative return (read error), `ok records` a successful read whose bytes
decode to `records` (zero bytes read is `ok []`). -/
inductive ReadResult where
  | failure
  | ok (records : List inotify_event)
  deriving Repr, DecidableEq

/-- Embeds the record-iteration loop of `watch_handler` (watch.c lines
115-126): walk the decoded batch in order; a record whose mask carries
`IN_MODIFY` is reported when verbose and bumps the event counter; every
other record is skipped. Returns the modify-count and the verbose log. -/
def drain_records (verbose : Bool) : List inotify_event → Nat × List String
  | [] => (0, [])
  | event :: rest =>
    let here :=
      if event.mask &&& IN_MODIFY != 0 then
        (1, if verbose then report_event event else [])
      else
        (0, [])
    let next := drain_records verbose rest
    (here.1 + next.1, here.2 ++ next.2)

/-- Embeds `watch_handler` (watch.c lines 109-129): perform one bounded
read; when the read fails (negative length) or returns no bytes the
`while (i < len)` loop never runs and the count is 0; otherwise iterate
the decoded records. -/
def watch_handler (r : ReadResult) (verbose : Bool) : Nat × List String :=
  match r with
  | .failure => (0, [])
  | .ok records => drain_records verbose records

/-! ### Session lifecycle (file-scope statics and initialise/shutdown) -/

/-- The file-scope statics `s_inotify_instance` and `s_watch_instance`
(watch.c lines 42-43), both initialised to -1. -/
structure SessionState where
  s_inotify_instance : Int
  s_watch_instance : Int
  deriving Repr, DecidableEq

/-- Outcomes of the startup system calls, supplied by the environment:
`signalInit` is the signalfd setup of `initialize_signals` (`none` =
failure, `some fd` the descriptor), `inotifyInit` the `inotify_init`
result, `addWatch` the `inotify_add_watch` result. Real descriptors are
non-negative, hence `Nat`. -/
structure StartupEnv where
  signalInit : Option Nat
  inotifyInit : Option Nat
  addWatch : Option Nat
  deriving Repr, DecidableEq

/-- Embeds `initialise_watcher` (watch.c lines 138-158): create an
inotify instance (return -1 on failure); otherwise register the watch —
on registration failure only an error is printed and the statics are left
untouched, and the function still returns the inotify descriptor `inf`;
on success the statics are set. Returns (return value, statics, verbose
log). -/
def initialise_watcher (startup : StartupEnv) (verbose : Bool)
    (sess : SessionState) : Int × SessionState × List String :=
  match startup.inotifyInit with
  | none => (-1, sess, [])
  | some inf =>
    match startup.addWatch with
    | none => ((inf : Int), sess, [])
    | some wd =>
      ((inf : Int),
       { s_inotify_instance := (inf : Int), s_watch_instance := (wd : Int) },
       if verbose then ["Begun monitoring of target - " ++ toString wd] else [])

/-- Embeds `shutdown_watcher` (watch.c lines 164-173): if an inotify
instance is open, first remove the watch when one is registered (setting
`s_watch_instance` to -1), then close the instance (setting
`s_inotify_instance` to -1); otherwise do nothing. -/
def shutdown_watcher (sess : SessionState) : SessionState :=
  if sess.s_inotify_instance != -1 then
    let sess1 :=
      if sess.s_watch_instance != -1 then
        { sess with s_watch_instance := -1 }
      else sess
    { sess1 with s_inotify_instance := -1 }
  else sess

/-! ### The debounce loop -/

/-- Loop-local state of `watch_for_changes`: the pending counter
`watch_events` (a C `int` that is only ever 0, incremented, or reset,
hence `Nat`) and the tentative return status `ret`. -/
structure LoopState where
  watch_events : Nat
  ret : Nat
  deriving Repr, DecidableEq

/-- Outcome of reading one `signalfd_siginfo` from the signal fd:
either the read returned a size other than `sizeof(fdsi)`, or it
delivered signal number `n`. -/
inductive SignalRead where
  | sizeMismatch
  | signo (n : Nat)
  deriving Repr, DecidableEq

/-- Outcome of one `poll` call, supplied by the environment:
`timeout` is a zero return (elapsed time, no descriptor ready),
`pollError` a negative return, and `ready` a positive return with the
POLLIN readiness of the signal and inotify descriptors plus the outcome
of whichever reads the loop body would then perform. -/
inductive PollOutcome where
  | timeout
  | pollError
  | ready (sigReady : Bool) (sigRead : SignalRead)
          (inoReady : Bool) (readRes : ReadResult)
  deriving Repr, DecidableEq

/-- Environment of one loop iteration: the `poll` outcome and the wait
status `rc` that `system(command)` would return if invoked. -/
structure Env where
  poll : PollOutcome
  rc : Int
  deriving Repr, DecidableEq

/-- glibc `WIFEXITED(status)`: the low seven status bits are zero
(`(status & 0x7f) == 0`); for a two's-complement `int` the low seven
bits are `status emod 128`. -/
def wifexited (status : Int) : Bool := status % 128 == 0

/-- The inline stop decision of the loop body (watch.c lines 272-276):
`if (rc != 0) { if (WIFEXITED(rc) != 0) break; }`. -/
def inline_stop (rc : Int) : Bool := decide (rc ≠ 0) && wifexited rc

/-- The adaptive poll timeout (watch.c line 258):
`watch_events ? 100 : 1000`. -/
def poll_timeout (s : LoopState) : Nat :=
  if s.watch_events != 0 then 100 else 1000

/-- Result of one loop iteration: whether the loop `break`s, the
updated state, whether `system(command)` was invoked, the timeout the
iteration passed to `poll`, and the stdout lines emitted. -/
structure StepOut where
  brk : Bool
  state : LoopState
  invoked : Bool
  timeout : Nat
  logs : List String
  deriving Repr, DecidableEq

/-- The inotify-readiness check at the end of the ready branch (watch.c
lines 306-310): when the inotify fd is ready, drain it and increment the
pending counter by one when the drained modify-count is positive. -/
def inotify_check (verbose : Bool) (s : LoopState)
    (inoReady : Bool) (readRes : ReadResult) : StepOut :=
  if inoReady then
    let drained := watch_handler readRes verbose
    if drained.1 > 0 then
      ⟨false, { s with watch_events := s.watch_events + 1 }, false,
       poll_timeout s, drained.2⟩
    else
      ⟨false, s, false, poll_timeout s, drained.2⟩
  else
    ⟨false, s, false, poll_timeout s, []⟩

/-- Embeds one iteration of the `for (;;)` loop of `watch_for_changes`
(watch.c lines 256-312): compute the adaptive timeout and poll; on
timeout with a positive pending counter reset the counter, run the
command and break exactly when the inline stop decision holds; on a poll
error record failure and break; on readiness handle the signal fd first
(size-mismatch read → failure break; SIGINT/SIGTERM → break; other
signal → fall through) and then the inotify fd. -/
def loop_step (command : String) (verbose : Bool) (s : LoopState)
    (env : Env) : StepOut :=
  match env.poll with
  | .timeout =>
    if s.watch_events > 0 then
      let execLogs :=
        (if verbose then ["Notify event - executing " ++ command] else []) ++
        (if verbose then ["return code " ++ toString env.rc] else [])
      let s1 := { s with watch_events := 0 }
      if inline_stop env.rc then
        ⟨true, s1, true, poll_timeout s, execLogs⟩
      else
        ⟨false, s1, true, poll_timeout s, execLogs⟩
    else
      ⟨false, s, false, poll_timeout s, []⟩
  | .pollError =>
    ⟨true, { s with ret := EXIT_FAILURE }, false, poll_timeout s, []⟩
  | .ready sigReady sigRead inoReady readRes =>
    if sigReady then
      match sigRead with
      | .sizeMismatch =>
        ⟨true, { s with ret := EXIT_FAILURE }, false, poll_timeout s, []⟩
      | .signo n =>
        if n == SIGINT || n == SIGTERM then
          ⟨true, s, false, poll_timeout s,
           if verbose then ["Received shutdown signal!"] else []⟩
        else
          inotify_check verbose s inoReady readRes
    else
      inotify_check verbose s inoReady readRes

/-- Result of running the loop over a finite trace of iteration
environments: either some iteration `break`s (`finished`), or the trace
is exhausted with the loop still waiting (`running`). Carries the final
loop state, the number of command invocations, and the stdout lines. -/
inductive RunResult where
  | finished (s : LoopState) (invocations : Nat) (logs : List String)
  | running (s : LoopState) (invocations : Nat) (logs : List String)
  deriving Repr, DecidableEq

/-- Run the debounce loop over a finite trace of environments. -/
def run_loop (command : String) (verbose : Bool) (s : LoopState) :
    List Env → RunResult
  | [] => .running s 0 []
  | env :: rest =>
    let out := loop_step command verbose s env
    let n : Nat := if out.invoked then 1 else 0
    if out.brk then
      .finished out.state n out.logs
    else
      match run_loop command verbose out.state rest with
      | .finished s1 n1 logs1 => .finished s1 (n + n1) (out.logs ++ logs1)
      | .running s1 n1 logs1 => .running s1 (n + n1) (out.logs ++ logs1)

/-- Observable outcome of `watch_for_changes`: return status, whether the
wait loop was entered, whether the trace was exhausted with the loop
still running, the number of command invocations, whether the signal fd
was closed before returning, the final session statics, and the stdout
lines. -/
structure WatchOutput where
  ret : Nat
  enteredLoop : Bool
  stillRunning : Bool
  invocations : Nat
  signalClosed : Bool
  sess : SessionState
  logs : List String
  deriving Repr, DecidableEq

/-- Embeds `watch_for_changes` (watch.c lines 228-320): set up the signal
fd (failure → return failure, nothing to release); initialise the
watcher and test its return value against -1 (failure → close the signal
fd and return failure); otherwise enter the poll loop, and after it ends
run `shutdown_watcher` and close the signal fd. The `continuous`
parameter is threaded in from main but never consulted. -/
def watch_for_changes (command : String) (continuous verbose : Bool)
    (startup : StartupEnv) (sess : SessionState) (trace : List Env) :
    WatchOutput :=
  match startup.signalInit with
  | none =>
    { ret := EXIT_FAILURE, enteredLoop := false, stillRunning := false,
      invocations := 0, signalClosed := false, sess := sess, logs := [] }
  | some _sfd =>
    let init := initialise_watcher startup verbose sess
    if init.1 = -1 then
      { ret := EXIT_FAILURE, enteredLoop := false, stillRunning := false,
        invocations := 0, signalClosed := true, sess := init.2.1,
        logs := init.2.2 }
    else
      match run_loop command verbose ⟨0, EXIT_SUCCESS⟩ trace with
      | .finished s invs logs =>
        { ret := s.ret, enteredLoop := true, stillRunning := false,
          invocations := invs, signalClosed := true,
          sess := shutdown_watcher init.2.1,
          logs := init.2.2 ++ logs ++
            (if verbose then ["Closing down."] else []) }
      | .running s invs logs =>
        { ret := s.ret, enteredLoop := true, stillRunning := true,
          invocations := invs, signalClosed := false, sess := init.2.1,
          logs := init.2.2 ++ logs }

/-- Embeds the standalone single-shot execution helper `execute_command`
(watch.c lines 209-215), over the wait status `rc` that `system` returns:
`return (WIFEXITED(system(command)) == 0) ? 0 : -1;`. -/
def execute_command (rc : Int) (verbose : Bool) : Int :=
  if wifexited rc = false then 0 else -1

/-! ### Wait-status encoding for child termination -/

/-- Abstract child-termination status: normal exit with a reported code,
or termination by signal `sig` (with core-dump flag). -/
inductive ProcStatus where
  | exited (code : Nat)
  | signaled (sig : Nat) (core : Bool)
  deriving Repr, DecidableEq

/-- Well-formedness of a wait status: an exit code fits in 8 bits, a
terminating signal number is between 1 and 127. -/
def validStatus : ProcStatus → Bool
  | .exited code => code < 256
  | .signaled sig _ => 0 < sig && sig < 128

/-- The POSIX wait-status word for a termination status, as `system` and
`waitpid` report it: exit code in bits 8-15, terminating signal in bits
0-6, core-dump flag in bit 7. -/
def encodeStatus : ProcStatus → Int
  | .exited code => (code : Int) * 256
  | .signaled sig core => (sig : Int) + (if core then 128 else 0)

/-! ### Concrete data used by counterexamples -/

/-- A batch of five records, each carrying only the modify kind. -/
def modifyBurst : List inotify_event := List.replicate 5 ⟨1, IN_MODIFY, 0, 0, ""⟩

/-- A record carrying only the (recognized) access kind. -/
def accessOnlyEvent : inotify_event := ⟨1, IN_ACCESS, 0, 0, ""⟩

/-! ### Helper lemmas -/

/-- The modify-count of a drained batch counts exactly the records whose
mask carries `IN_MODIFY`. -/
lemma drain_records_count (verbose : Bool) (records : List inotify_event) :
    (drain_records verbose records).1 =
      records.countP (fun e => e.mask &&& IN_MODIFY != 0) := by
  induction records with
  | nil => rfl
  | cons e rest ih =>
    simp only [drain_records, List.countP_cons, ih]
    by_cases h : e.mask &&& IN_MODIFY != 0 <;> simp [h] <;> omega

/-- The verbose log of a drained batch is the concatenated reports of
exactly the records whose mask carries `IN_MODIFY`. -/
lemma drain_records_logs (records : List inotify_event) :
    (drain_records true records).2 =
      ((records.filter (fun e => e.mask &&& IN_MODIFY != 0)).map report_event).flatten := by
  induction records with
  | nil => rfl
  | cons e rest ih =>
    simp only [drain_records, List.filter_cons]
    by_cases h : e.mask &&& IN_MODIFY != 0 <;> simp [h, ih]

/-- The inotify-readiness check never breaks the loop. -/
lemma inotify_check_brk (verbose : Bool) (s : LoopState) (inoReady : Bool)
    (readRes : ReadResult) :
    (inotify_check verbose s inoReady readRes).brk = false := by
  simp only [inotify_check]
  split
  · split <;> rfl
  · rfl

/-- The inotify-readiness check never invokes the command. -/
lemma inotify_check_invoked (verbose : Bool) (s : LoopState) (inoReady : Bool)
    (readRes : ReadResult) :
    (inotify_check verbose s inoReady readRes).invoked = false := by
  simp only [inotify_check]
  split
  · split <;> rfl
  · rfl

/-- The inotify-readiness check reports the adaptive timeout of the
iteration's state. -/
lemma inotify_check_timeout (verbose : Bool) (s : LoopState) (inoReady : Bool)
    (readRes : ReadResult) :
    (inotify_check verbose s inoReady readRes).timeout = poll_timeout s := by
  simp only [inotify_check]
  split
  · split <;> rfl
  · rfl

/-- The inline stop decision on an encoded wait status holds exactly for
a normal exit with nonzero reported code. -/
lemma inline_stop_encodeStatus (st : ProcStatus) (hval : validStatus st = true) :
    (inline_stop (encodeStatus st) = true ↔
      ∃ code, st = ProcStatus.exited code ∧ code ≠ 0) := by
  cases st with
  | exited code =>
    simp only [validStatus, decide_eq_true_eq] at hval
    simp only [inline_stop, wifexited, encodeStatus, Bool.and_eq_true,
      decide_eq_true_eq, beq_iff_eq, ProcStatus.exited.injEq]
    constructor
    · rintro ⟨h1, _⟩
      exact ⟨code, rfl, by omega⟩
    · rintro ⟨code1, hc, hne⟩
      cases hc
      omega
  | signaled sig core =>
    simp only [validStatus, Bool.and_eq_true, decide_eq_true_eq] at hval
    simp only [inline_stop, wifexited, encodeStatus, Bool.and_eq_true,
      decide_eq_true_eq, beq_iff_eq]
    constructor
    · rintro ⟨h1, h2⟩
      cases core <;> simp at h2 <;> omega
    · rintro ⟨code1, hc, hne⟩
      exact absurd hc (by simp)

/-- Every branch of a loop iteration passes the adaptive timeout to
`poll`. -/
lemma loop_step_timeout_eq (command : String) (verbose : Bool)
    (s : LoopState) (env : Env) :
    (loop_step command verbose s env).timeout = poll_timeout s := by
  obtain ⟨p, rc⟩ := env
  cases p with
  | timeout =>
    simp only [loop_step]
    split
    · split <;> rfl
    · rfl
  | pollError => rfl
  | ready sigReady sigRead inoReady readRes =>
    simp only [loop_step]
    split
    · split
      · rfl
      · split
        · rfl
        · exact inotify_check_timeout verbose s inoReady readRes
    · exact inotify_check_timeout verbose s inoReady readRes

/-- The command is invoked in exactly one branch of a loop iteration:
poll timed out with a positive pending counter. -/
lemma loop_step_invoked_iff (command : String) (verbose : Bool)
    (s : LoopState) (env : Env) :
    ((loop_step command verbose s env).invoked = true ↔
      (env.poll = PollOutcome.timeout ∧ 0 < s.watch_events)) := by
  obtain ⟨p, rc⟩ := env
  cases p with
  | timeout =>
    simp only [loop_step]
    by_cases h : s.watch_events > 0
    · rw [if_pos h]
      split <;> simp [h]
    · rw [if_neg h]
      simp [h]
  | pollError => simp [loop_step]
  | ready sigReady sigRead inoReady readRes =>
    simp only [loop_step]
    split
    · split
      · simp
      · split
        · simp
        · simp [inotify_check_invoked]
    · simp [inotify_check_invoked]

/-! ### Claim theorems -/

/-- C1. For every command invocation triggered by the debounce loop (poll
timed out with a positive pending counter), the loop breaks after that
invocation if and only if the child's wait status encodes a normal exit
with nonzero reported code; a child killed by a signal, and a normal exit
with code zero, do not break the loop. -/
theorem c1_stop_iff_normal_nonzero_exit (command : String) (verbose : Bool)
    (s : LoopState) (env : Env) (st : ProcStatus)
    (henv : env.poll = PollOutcome.timeout) (hpend : 0 < s.watch_events)
    (hval : validStatus st = true) (hrc : env.rc = encodeStatus st) :
    ((loop_step command verbose s env).brk = true ↔
      ∃ code, st = ProcStatus.exited code ∧ code ≠ 0) := by
  obtain ⟨p, rc⟩ := env
  simp only at henv hrc
  subst henv
  subst hrc
  simp only [loop_step]
  rw [if_pos hpend]
  rw [← inline_stop_encodeStatus st hval]
  split <;> simp_all

/-- Witness for C1 at a concrete invocation: pending counter 1, poll
timeout, child exits normally with code 1 (wait status 256). -/
theorem c1_witness :
    (Env.mk PollOutcome.timeout 256).poll = PollOutcome.timeout ∧
    0 < (LoopState.mk 1 EXIT_SUCCESS).watch_events ∧
    validStatus (ProcStatus.exited 1) = true ∧
    (Env.mk PollOutcome.timeout 256).rc = encodeStatus (ProcStatus.exited 1) ∧
    ((loop_step "cmd" false ⟨1, EXIT_SUCCESS⟩ ⟨PollOutcome.timeout, 256⟩).brk = true ↔
      ∃ code, ProcStatus.exited 1 = ProcStatus.exited code ∧ code ≠ 0) :=
  ⟨rfl, by decide, by decide, by decide,
    c1_stop_iff_normal_nonzero_exit "cmd" false ⟨1, EXIT_SUCCESS⟩
      ⟨PollOutcome.timeout, 256⟩ (ProcStatus.exited 1) rfl (by decide)
      (by decide) (by decide)⟩

/-- C2 (code bug). With the signal fd set up (fd 3), `inotify_init`
succeeding (fd 4) and `inotify_add_watch` failing — a nonexistent target —
`watch_for_changes` still enters the wait loop, and after a SIGINT it
returns `EXIT_SUCCESS`, contradicting the claimed failure-without-loop
behaviour: `initialise_watcher` returns the inotify descriptor, not -1,
when only the registration fails. -/
theorem c2_registration_failure_still_enters_loop :
    (watch_for_changes "cmd" true false ⟨some 3, some 4, none⟩ ⟨-1, -1⟩
        [⟨PollOutcome.ready true (SignalRead.signo SIGINT) false ReadResult.failure, 0⟩]).enteredLoop
      = true ∧
    (watch_for_changes "cmd" true false ⟨some 3, some 4, none⟩ ⟨-1, -1⟩
        [⟨PollOutcome.ready true (SignalRead.signo SIGINT) false ReadResult.failure, 0⟩]).ret
      = EXIT_SUCCESS :=
  ⟨rfl, rfl⟩

/-- C3 counterexample. A single drain of a five-modify-record batch
reports count 5, yet the loop's pending counter goes from 0 to 1, not to
0 + 5: the loop does not do `pending += count`. -/
theorem c3_counterexample_burst_counted_once :
    (watch_handler (ReadResult.ok modifyBurst) false).1 = 5 ∧
    (loop_step "cmd" false ⟨0, EXIT_SUCCESS⟩
        ⟨PollOutcome.ready false (SignalRead.signo 0) true (ReadResult.ok modifyBurst), 0⟩).state.watch_events
      ≠ 0 + 5 :=
  ⟨rfl, by decide⟩

/-- C3 amended. On a change-source-ready iteration the pending counter
increases by exactly one when the drained modify-count is positive and is
unchanged when it is zero (so it counts positive drains, not individual
modify events), and such an iteration never breaks the loop. -/
theorem c3_pending_increments_by_one_per_positive_drain (command : String)
    (verbose : Bool) (s : LoopState) (sigRead : SignalRead)
    (readRes : ReadResult) (rc : Int) :
    (loop_step command verbose s
        ⟨PollOutcome.ready false sigRead true readRes, rc⟩).state.watch_events
      = (if 0 < (watch_handler readRes verbose).1 then s.watch_events + 1
         else s.watch_events) ∧
    (loop_step command verbose s
        ⟨PollOutcome.ready false sigRead true readRes, rc⟩).brk = false := by
  have hstep : loop_step command verbose s
      ⟨PollOutcome.ready false sigRead true readRes, rc⟩
      = inotify_check verbose s true readRes := rfl
  rw [hstep]
  by_cases hc : 0 < (watch_handler readRes verbose).1 <;>
    simp [inotify_check, hc]

/-- C4 counterexample. In verbose mode a record carrying only the
recognized access kind produces no log output at all: only records whose
mask carries the modify kind are reported. -/
theorem c4_counterexample_access_event_not_logged :
    (accessOnlyEvent.mask &&& IN_ACCESS != 0) = true ∧
    (watch_handler (ReadResult.ok [accessOnlyEvent]) true).2 = [] :=
  ⟨rfl, rfl⟩

/-- C4 amended. In verbose mode the drain log consists of the reports of
exactly those records whose kind bitset contains the modify kind — each
such report does list all recognized kinds present in that record's mask —
and records without the modify kind are not logged. -/
theorem c4_verbose_logs_exactly_modify_records (records : List inotify_event) :
    (watch_handler (ReadResult.ok records) true).2 =
      ((records.filter (fun e => e.mask &&& IN_MODIFY != 0)).map report_event).flatten :=
  drain_records_logs records

/-- C5. The continuous-mode flag is never consulted: for every command,
verbose flag, startup outcome, session state and event trace, running
`watch_for_changes` with the flag true yields exactly the same observable
output (return status, invocations, logs, final session state) as with
the flag false. -/
theorem c5_continuous_flag_never_consulted (command : String) (verbose : Bool)
    (startup : StartupEnv) (sess : SessionState) (trace : List Env) :
    watch_for_changes command true verbose startup sess trace
      = watch_for_changes command false verbose startup sess trace := rfl

/-- C6 counterexample. On wait status 0 (normal exit, code zero) the
standalone helper `execute_command` returns -1 — its nonzero "stop"
result — while the loop's inline decision does not break: the two stop
decisions are not equal for every status. -/
theorem c6_counterexample_zero_status :
    execute_command 0 false = -1 ∧ inline_stop 0 = false :=
  ⟨rfl, rfl⟩

/-- C6 amended. The helper distinguishes only normal from abnormal
termination, so its stop signal (nonzero result) agrees with the loop's
inline stop decision on every wait status except 0 (normal exit with
code zero), where the helper signals stop and the inline logic
continues. -/
theorem c6_helper_matches_inline_except_zero (rc : Int) (h : rc ≠ 0) :
    ((execute_command rc false ≠ 0) ↔ inline_stop rc = true) := by
  by_cases hw : wifexited rc = true
  · simp [execute_command, inline_stop, hw, h]
  · simp only [Bool.not_eq_true] at hw
    simp [execute_command, inline_stop, hw]

/-- Witness for C6 amended at wait status 256 (normal exit, code 1). -/
theorem c6_witness :
    (256 : Int) ≠ 0 ∧
    ((execute_command 256 false ≠ 0) ↔ inline_stop 256 = true) :=
  ⟨by decide, c6_helper_matches_inline_except_zero 256 (by decide)⟩

/-- C7. The drained modify-count of a successfully read batch equals the
number of records in the batch whose event-kind bitset contains the
modify kind; records of every other kind contribute zero. -/
theorem c7_drain_counts_exactly_modify_records (records : List inotify_event)
    (verbose : Bool) :
    (watch_handler (ReadResult.ok records) verbose).1 =
      records.countP (fun e => e.mask &&& IN_MODIFY != 0) :=
  drain_records_count verbose records

/-- C8. Every loop iteration passes timeout 1000 ms to the wait when the
pending counter is zero and 100 ms when it is positive, and the command
is invoked exactly when the wait returned due to elapsed time (zero
descriptors ready) while the pending counter was positive. -/
theorem c8_adaptive_timeout_and_quiescent_trigger (command : String)
    (verbose : Bool) (s : LoopState) (env : Env) :
    (loop_step command verbose s env).timeout
      = (if s.watch_events = 0 then 1000 else 100) ∧
    ((loop_step command verbose s env).invoked = true ↔
      (env.poll = PollOutcome.timeout ∧ 0 < s.watch_events)) := by
  refine ⟨?_, loop_step_invoked_iff command verbose s env⟩
  rw [loop_step_timeout_eq]
  by_cases h : s.watch_events = 0 <;> simp [poll_timeout, h]

/-- C9. Session teardown is idempotent: a second `shutdown_watcher` on
any session state — already closed, never registered, or open — leaves
it exactly as the first call did. -/
theorem c9_shutdown_idempotent (sess : SessionState) :
    shutdown_watcher (shutdown_watcher sess) = shutdown_watcher sess := by
  by_cases h1 : sess.s_inotify_instance != -1 <;>
    by_cases h2 : sess.s_watch_instance != -1 <;>
      simp_all [shutdown_watcher]

/-- C10. A failed bounded read (negative length) or an empty read yields
drain count 0, and an iteration draining a failed read neither breaks the
loop nor changes its state: the loop keeps waiting. -/
theorem c10_failed_read_drains_zero_and_continues (command : String)
    (verbose : Bool) (s : LoopState) (sigRead : SignalRead) (rc : Int) :
    (watch_handler ReadResult.failure verbose).1 = 0 ∧
    (watch_handler (ReadResult.ok []) verbose).1 = 0 ∧
    (loop_step command verbose s
        ⟨PollOutcome.ready false sigRead true ReadResult.failure, rc⟩).brk = false ∧
    (loop_step command verbose s
        ⟨PollOutcome.ready false sigRead true ReadResult.failure, rc⟩).state = s := by
  have hstep : loop_step command verbose s
      ⟨PollOutcome.ready false sigRead true ReadResult.failure, rc⟩
      = inotify_check verbose s true ReadResult.failure := rfl
  refine ⟨rfl, rfl, ?_, ?_⟩ <;> rw [hstep] <;>
    simp [inotify_check, watch_handler]

end Watchf
